import Mathlib

/-!
Verification of the `jira.py` module (plugins/modules/web_infrastructure/jira.py)
against its natural-language specification.  The module performs one JIRA REST
call per invocation: a handler (create/comment/edit/update/fetch/search/
transition/link/attach) shapes a JSON or multipart body and hands it to a small
request client.  The embedding below mirrors the source line by line: Python
dicts become insertion-ordered association lists, `json.loads` becomes an
executable parser, fallible code returns `Except`, and the HTTP layer and the
file system are passed in explicitly as functions.
-/

namespace Jira

/-- JSON values as produced by Python `json.loads`, restricted to the shapes the
module exchanges (numbers are modelled as integers; the module never builds or
inspects fractional numbers).  Object entries keep insertion order, matching
Python dict semantics. -/
inductive Json where
  | null : Json
  | bool : Bool → Json
  | num : Int → Json
  | str : String → Json
  | arr : List Json → Json
  | obj : List (String × Json) → Json

/-- Python `d.get(k)` / `d[k]` on a dict modelled as an insertion-ordered
association list. -/
def dictGet (d : List (String × Json)) (k : String) : Option Json :=
  match d.find? (fun kv => kv.1 == k) with
  | some kv => some kv.2
  | none => none

/-- Python `d[k] = v`: replace the value in place when the key exists, append a
new entry otherwise. -/
def dictSet (d : List (String × Json)) (k : String) (v : Json) :
    List (String × Json) :=
  if d.any (fun kv => kv.1 == k) then
    d.map (fun kv => if kv.1 == k then (k, v) else kv)
  else d ++ [(k, v)]

/-- Python `d.update(e)` for dicts: set each entry of `e` in order. -/
def dictUpdate (d e : List (String × Json)) : List (String × Json) :=
  e.foldl (fun acc kv => dictSet acc kv.1 kv.2) d

/-- Python truthiness of a decoded JSON value (`if error:` and friends). -/
def jsonTruthy : Json → Bool
  | .null => false
  | .bool b => b
  | .num n => n != 0
  | .str s => s != ""
  | .arr xs => !xs.isEmpty
  | .obj d => !d.isEmpty

mutual

/-- Python `repr` of a `json.loads` value (which is what `str` prints for
containers).  String contents are modelled for characters that need no escaping
in `repr`, the only ones the development evaluates it on. -/
def pyRepr : Json → String
  | .null => "None"
  | .bool true => "True"
  | .bool false => "False"
  | .num n => toString n
  | .str s => "\x27" ++ s ++ "\x27"
  | .arr xs => "[" ++ pyReprList xs ++ "]"
  | .obj d => "\x7b" ++ pyReprObj d ++ "\x7d"

/-- Comma-separated `repr` of list elements. -/
def pyReprList : List Json → String
  | [] => ""
  | [x] => pyRepr x
  | x :: y :: xs => pyRepr x ++ ", " ++ pyReprList (y :: xs)

/-- Comma-separated `repr` of dict entries. -/
def pyReprObj : List (String × Json) → String
  | [] => ""
  | [(k, v)] => "\x27" ++ k ++ "\x27: " ++ pyRepr v
  | (k, v) :: kv :: xs =>
      "\x27" ++ k ++ "\x27: " ++ pyRepr v ++ ", " ++ pyReprObj (kv :: xs)

end

/-- ansible `to_native`/`to_text` applied to a decoded JSON value: a `str`
passes through unchanged, any other value is rendered with `str()`, which for
these values agrees with `repr()`. -/
def pyToNative : Json → String
  | .str s => s
  | v => pyRepr v

/-- Python `"%s" % x` for an optional string (`None` prints as `"None"`). -/
def pyFmtOpt : Option String → String
  | some s => s
  | none => "None"

/-! ### An executable model of `json.loads`

A fuel-based recursive-descent JSON parser.  It accepts the JSON grammar with
two deliberate restrictions that the module never exercises: numbers must be
integers (no fraction/exponent) and string escapes are limited to the common
single-character escapes (no `\u`). -/

/-- Skip JSON whitespace. -/
def skipWs : List Char → List Char
  | c :: cs =>
      if c = ' ' ∨ c = '\t' ∨ c = '\n' ∨ c = '\r' then skipWs cs else c :: cs
  | [] => []

/-- Parse the body of a JSON string after the opening quote; returns the
decoded string and the input after the closing quote. -/
def parseStringBody : List Char → Option (String × List Char)
  | [] => none
  | c :: cs =>
    if c = '"' then some ("", cs)
    else if c = '\\' then
      match cs with
      | e :: cs2 =>
        let esc : Option Char :=
          if e = '"' then some '"'
          else if e = '\\' then some '\\'
          else if e = '/' then some '/'
          else if e = 'n' then some '\n'
          else if e = 't' then some '\t'
          else if e = 'r' then some '\r'
          else none
        match esc with
        | some ch =>
          match parseStringBody cs2 with
          | some (s, rest) => some (ch.toString ++ s, rest)
          | none => none
        | none => none
      | [] => none
    else if c.toNat < 32 then none
    else
      match parseStringBody cs with
      | some (s, rest) => some (c.toString ++ s, rest)
      | none => none

/-- Decimal value of a digit list. -/
def digitsToNat (ds : List Char) : Nat :=
  ds.foldl (fun acc c => acc * 10 + (c.toNat - 48)) 0

/-- Parse a JSON integer literal (leading zeros rejected, fraction and exponent
not modelled). -/
def parseNumber (cs : List Char) : Option (Json × List Char) :=
  let negAndRest : Bool × List Char :=
    match cs with
    | '-' :: rest => (true, rest)
    | _ => (false, cs)
  let ds := negAndRest.2.takeWhile (fun c => c.isDigit)
  let rest := negAndRest.2.dropWhile (fun c => c.isDigit)
  if ds.isEmpty then none
  else if ds.length > 1 ∧ ds.headD '0' = '0' then none
  else
    match rest with
    | c :: _ =>
        if c = '.' ∨ c = 'e' ∨ c = 'E' then none
        else
          some (Json.num (if negAndRest.1 then -(Int.ofNat (digitsToNat ds))
                          else Int.ofNat (digitsToNat ds)), rest)
    | [] =>
        some (Json.num (if negAndRest.1 then -(Int.ofNat (digitsToNat ds))
                        else Int.ofNat (digitsToNat ds)), rest)

mutual

/-- Parse one JSON value (fuel-based recursion). -/
def parseValue : Nat → List Char → Option (Json × List Char)
  | 0, _ => none
  | fuel + 1, cs =>
    match skipWs cs with
    | 'n' :: 'u' :: 'l' :: 'l' :: rest => some (Json.null, rest)
    | 't' :: 'r' :: 'u' :: 'e' :: rest => some (Json.bool true, rest)
    | 'f' :: 'a' :: 'l' :: 's' :: 'e' :: rest => some (Json.bool false, rest)
    | '"' :: rest =>
      (match parseStringBody rest with
       | some (s, r) => some (Json.str s, r)
       | none => none)
    | '[' :: rest =>
      (match skipWs rest with
       | ']' :: r => some (Json.arr [], r)
       | other =>
         match parseElems fuel other with
         | some (xs, r) => some (Json.arr xs, r)
         | none => none)
    | '\x7b' :: rest =>
      (match skipWs rest with
       | '\x7d' :: r => some (Json.obj [], r)
       | other =>
         match parseMembers fuel other with
         | some (kvs, r) => some (Json.obj kvs, r)
         | none => none)
    | other => parseNumber other

/-- Parse the elements of a non-empty JSON array up to and including `]`. -/
def parseElems : Nat → List Char → Option (List Json × List Char)
  | 0, _ => none
  | fuel + 1, cs =>
    match parseValue fuel cs with
    | some (x, r) =>
      (match skipWs r with
       | ',' :: r2 =>
         (match parseElems fuel r2 with
          | some (xs, r3) => some (x :: xs, r3)
          | none => none)
       | ']' :: r2 => some ([x], r2)
       | _ => none)
    | none => none

/-- Parse the members of a non-empty JSON object up to and including `}`. -/
def parseMembers : Nat → List Char → Option (List (String × Json) × List Char)
  | 0, _ => none
  | fuel + 1, cs =>
    match skipWs cs with
    | '"' :: rest =>
      (match parseStringBody rest with
       | some (k, r) =>
         (match skipWs r with
          | ':' :: r2 =>
            (match parseValue fuel r2 with
             | some (v, r3) =>
               (match skipWs r3 with
                | ',' :: r4 =>
                  (match parseMembers fuel r4 with
                   | some (kvs, r5) => some ((k, v) :: kvs, r5)
                   | none => none)
                | '\x7d' :: r4 => some ([(k, v)], r4)
                | _ => none)
             | none => none)
          | _ => none)
       | none => none)
    | _ => none

end

/-- Model of Python `json.loads`: parse one value and require only whitespace
after it. -/
def jsonParse (s : String) : Option Json :=
  match parseValue (2 * s.length + 4) s.data with
  | some (j, rest) => if (skipWs rest).isEmpty then some j else none
  | none => none

/-! ### Failures, requests and small string helpers -/

/-- Failure of one module invocation: either an explicit `module.fail_json`
call, or a raised Python exception (which `main` at jira.py:690-691 turns into
`fail_json` with the exception text). -/
inductive PyErr where
  | failJson : String → PyErr
  | valueError : String → PyErr
  | typeError : String → PyErr
  | keyError : String → PyErr
  | attributeError : String → PyErr
  | fileNotFound : String → PyErr

/-- Body handed to the request client: a JSON value (serialised with
`json.dumps` at jira.py:379-380) or an already-encoded raw string (the
multipart attachment body). -/
inductive BodyData where
  | json : Json → BodyData
  | raw : String → BodyData

/-- One HTTP request as a handler dispatches it through `post`/`put`/`get`
(jira.py:427-436): everything those wrappers pass to `request` apart from the
credentials and the timeout, which flow through unchanged. -/
structure JiraReq where
  method : String
  url : String
  body : Option BodyData
  contentType : String
  additionalHeaders : List (String × String)

/-- Raised when Python concatenates a string with `None` (an unset required
parameter reaching `'/issue/' + params['issue']` and similar). -/
def noneConcatErr : PyErr :=
  .typeError "can only concatenate str (not \x22NoneType\x22) to str"

/-- Characters `urllib` quoting leaves unchanged (letters, digits, `_.-~` and
the default safe character `/`). -/
def isUnquoted (c : Char) : Bool :=
  c.isAlphanum || c == '_' || c == '.' || c == '-' || c == '~' || c == '/'

/-- Upper-case hex digit. -/
def hexDigitChar (n : Nat) : Char :=
  if n < 10 then Char.ofNat (48 + n) else Char.ofNat (55 + n)

/-- Percent-encoding of one byte. -/
def percentByte (b : Nat) : String :=
  "%" ++ (hexDigitChar (b / 16)).toString ++ (hexDigitChar (b % 16)).toString

/-- The UTF-8 bytes of one character. -/
def utf8Bytes (c : Char) : List Nat :=
  let n := c.toNat
  if n < 128 then [n]
  else if n < 2048 then [192 + n / 64, 128 + n % 64]
  else if n < 65536 then [224 + n / 4096, 128 + (n / 64) % 64, 128 + n % 64]
  else [240 + n / 262144, 128 + (n / 4096) % 64, 128 + (n / 64) % 64, 128 + n % 64]

/-- Model of `pathname2url` (posix `urllib.parse.quote`): percent-encode the
UTF-8 bytes of every character outside the safe set. -/
def urlquote (s : String) : String :=
  String.join (s.data.map (fun c =>
    if isUnquoted c then c.toString
    else String.join ((utf8Bytes c).map percentByte)))

/-- Split a character list at every occurrence of a separator character. -/
def splitOnChar (sep : Char) : List Char → List (List Char)
  | [] => [[]]
  | c :: rest =>
    match splitOnChar sep rest with
    | [] => [[]]
    | g :: gs => if c = sep then [] :: g :: gs else (c :: g) :: gs

/-- Split a character list at every CRLF pair. -/
def splitCRLF : List Char → List (List Char)
  | [] => [[]]
  | '\r' :: '\n' :: rest => [] :: splitCRLF rest
  | c :: rest =>
    match splitCRLF rest with
    | [] => [[]]
    | g :: gs => (c :: g) :: gs

/-- Whether `s` ends with `suffix` (structural model of `str.endswith`). -/
def strEndsWith (s suffix : String) : Bool :=
  s.data.reverse.take suffix.data.length == suffix.data.reverse

/-- Model of `os.path.basename`: the part after the last `/`. -/
def basename (s : String) : String :=
  String.mk ((splitOnChar '/' s.data).getLastD s.data)

/-- Python `s.partition('/')` restricted to the two sides: split at the first
`/`; when there is none the right side is empty. -/
def partitionSlash (s : String) : String × String :=
  match splitOnChar '/' s.data with
  | [] => (s, "")
  | [x] => (String.mk x, "")
  | x :: rest => (String.mk x, String.intercalate "/" (rest.map String.mk))

/-- Models `mimetypes.guess_type(filename, strict=False)[0] or
'application/octet-stream'` (jira.py:589) for the extensions this development
evaluates it on; the stdlib table is larger, but no claim depends on a
particular entry. -/
def guessMime (filename : String) : String :=
  if strEndsWith filename ".txt" then "text/plain"
  else if strEndsWith filename ".json" then "application/json"
  else if strEndsWith filename ".xlsx" then
    "application/vnd.openxmlformats-officedocument.spreadsheetml.sheet"
  else "application/octet-stream"

/-- The `escape_quotes` helper of `_prepare_attachment` (jira.py:581-582):
replace every double quote by a backslash-escaped one. -/
def escapeQuotes (s : String) : String :=
  String.join (s.data.map (fun c => if c = '\x22' then "\\\x22" else c.toString))

/-- Truthiness of an optional Python string (`None` and `''` are falsy). -/
def optTruthy : Option String → Bool
  | some s => s != ""
  | none => false

/-- A possibly-`None` string spliced into a JSON body (Python `None` serialises
as JSON `null`). -/
def optStrJson : Option String → Json
  | some s => Json.str s
  | none => Json.null

/-! ### The request client (jira.py:369-424) -/

/-- The status codes `request` treats as success (jira.py:403). -/
def successStatus (status : Nat) : Bool :=
  status == 200 || status == 201 || status == 204

/-- The error fields collected at jira.py:410-413: for each of
`errorMessages`, `errors` (in that order), the rendered value when the field is
present and truthy (`error.get(key)` yields `None` for an absent field, and the
code keeps only truthy values). -/
def errParts (d : List (String × Json)) : List String :=
  ["errorMessages", "errors"].filterMap (fun k =>
    match dictGet d k with
    | some v => if jsonTruthy v then some (pyToNative v) else none
    | none => none)

/-- Models jira.py:403-424, the response-interpretation stage of `request`:
given the HTTP status and the response body, produce the decoded JSON result or
the failure.  On a non-success status the body is parsed; an unparseable body
is reported verbatim (`fail_json` inside the `except` at line 408), a falsy
parse falls through to the verbatim report at line 418, a truthy dict is mined
for `errorMessages`/`errors` (joined at line 415, whole-object fallback at
line 416), and a truthy non-dict raises `AttributeError` at `error.get`.  On a
success status an empty body yields `{}` and otherwise the body must parse
(`json.loads` at line 423 raises on malformed JSON). -/
def requestInterpret (status : Nat) (body : String) : Except PyErr Json :=
  if successStatus status then
    if body == "" then .ok (Json.obj [])
    else
      match jsonParse body with
      | some j => .ok j
      | none => .error (.valueError "Expecting value (json.loads)")
  else
    match jsonParse body with
    | none => .error (.failJson body)
    | some e =>
      if jsonTruthy e then
        match e with
        | Json.obj d =>
          if (errParts d).isEmpty then .error (.failJson (pyToNative (Json.obj d)))
          else .error (.failJson (String.intercalate ", " (errParts d)))
        | _ => .error (.attributeError "object has no attribute \x27get\x27")
      else .error (.failJson body)

/-- Models the header construction of `request`, jira.py:389-397.  Line 392
reads `if isinstance(additional_headers) == dict:`; `isinstance` requires two
arguments, so this call raises `TypeError` unconditionally, before the
Authorization and Content-Type headers are installed and before `fetch_url` is
reached. -/
def buildHeaders (_contentType : String)
    (_additionalHeaders : Option (List (String × String))) :
    Except PyErr (List (String × String)) :=
  .error (.typeError "isinstance expected 2 arguments, got 1")

/-- Models `request` (jira.py:369-424) end to end.  `http` stands for
`fetch_url`: it maps (method, url, headers, body) to the response status and
body. -/
def request
    (http : String → String → List (String × String) → Option BodyData → Nat × String)
    (url : String) (data : Option BodyData) (method : String)
    (contentType : String)
    (additionalHeaders : Option (List (String × String))) : Except PyErr Json :=
  match buildHeaders contentType additionalHeaders with
  | .error e => .error e
  | .ok headers =>
    let statusBody := http method url headers data
    requestInterpret statusBody.1 statusBody.2

/-! ### Module parameters (the argument_spec of `main`, jira.py:622-651) -/

/-- The `attachment` dict suboptions (jira.py:624-628): `filename` is required,
`content` and `mimetype` are optional. -/
structure AttachmentSpec where
  filename : String
  content : Option String
  mimetype : Option String

/-- The parameter dict handed to the handlers.  Optional string parameters are
`Option String` (`none` is Python `None`); `fields` defaults to the empty dict
(jira.py:642).  Credentials, `uri`, `timeout` and `validate_certs` flow through
to the HTTP layer unchanged and carry no handler logic, so they are not fields
here. -/
structure Params where
  project : Option String
  summary : Option String
  description : Option String
  issuetype : Option String
  issue : Option String
  comment : Option String
  status : Option String
  assignee : Option String
  account_id : Option String
  fields : List (String × Json)
  linktype : Option String
  inwardissue : Option String
  outwardissue : Option String
  jql : Option String
  maxresults : Option Int
  attachment : Option AttachmentSpec

/-! ### The nine operation handlers (jira.py:439-565)

Each handler is modelled as the pair it returns: the `changed` flag and the
HTTP request it dispatches (the source returns `(changed, post(...))`; the
model returns the request that `post`/`put`/`get` would carry to the wire).
A raised exception becomes `Except.error`. -/

/-- `create` (jira.py:439-456). -/
def create (restbase : String) (p : Params) : Except PyErr (Bool × JiraReq) :=
  let cf0 : List (String × Json) :=
    [("project", Json.obj [("key", optStrJson p.project)]),
     ("summary", optStrJson p.summary),
     ("issuetype", Json.obj [("name", optStrJson p.issuetype)])]
  let cf1 := if optTruthy p.description then
      dictSet cf0 "description" (optStrJson p.description)
    else cf0
  let cf2 := if p.fields.isEmpty then cf1 else dictUpdate cf1 p.fields
  .ok (true, ⟨"POST", restbase ++ "/issue/",
    some (.json (Json.obj [("fields", Json.obj cf2)])), "application/json", []⟩)

/-- `comment` (jira.py:459-465). -/
def comment (restbase : String) (p : Params) : Except PyErr (Bool × JiraReq) :=
  match p.issue with
  | none => .error noneConcatErr
  | some iss =>
    .ok (true, ⟨"POST", restbase ++ "/issue/" ++ iss ++ "/comment",
      some (.json (Json.obj [("body", optStrJson p.comment)])),
      "application/json", []⟩)

/-- `edit` (jira.py:468-474). -/
def edit (restbase : String) (p : Params) : Except PyErr (Bool × JiraReq) :=
  match p.issue with
  | none => .error noneConcatErr
  | some iss =>
    .ok (true, ⟨"PUT", restbase ++ "/issue/" ++ iss,
      some (.json (Json.obj [("fields", Json.obj p.fields)])),
      "application/json", []⟩)

/-- `update` (jira.py:477-483). -/
def update (restbase : String) (p : Params) : Except PyErr (Bool × JiraReq) :=
  match p.issue with
  | none => .error noneConcatErr
  | some iss =>
    .ok (true, ⟨"PUT", restbase ++ "/issue/" ++ iss,
      some (.json (Json.obj [("update", Json.obj p.fields)])),
      "application/json", []⟩)

/-- `fetch` (jira.py:486-488). -/
def fetch (restbase : String) (p : Params) : Except PyErr (Bool × JiraReq) :=
  match p.issue with
  | none => .error noneConcatErr
  | some iss =>
    .ok (false, ⟨"GET", restbase ++ "/issue/" ++ iss, none,
      "application/json", []⟩)

/-- `search` (jira.py:491-498): base query string, then one `&fields=` segment
per key of the free-form fields dict, then `&maxResults=` when the limit is
truthy. -/
def search (restbase : String) (p : Params) : Except PyErr (Bool × JiraReq) :=
  match p.jql with
  | none => .error (.typeError "pathname2url of None")
  | some q =>
    let url0 := restbase ++ "/search?jql=" ++ urlquote q
    let url1 := if p.fields.isEmpty then url0
      else url0 ++ "&fields=" ++
        String.intercalate "&fields=" (p.fields.map (fun kv => urlquote kv.1))
    let url2 := match p.maxresults with
      | some m => if m != 0 then url1 ++ "&maxResults=" ++ toString m else url1
      | none => url1
    .ok (false, ⟨"GET", url2, none, "application/json", []⟩)

/-- Python `t['name'] == target` where `t['name']` is a decoded JSON value and
`target` the possibly-`None` requested transition name: equality holds for
equal strings and for `null`/`None`, and is `False` across types. -/
def pyEqName (v : Json) (target : Option String) : Bool :=
  match v, target with
  | .str s, some t => s == t
  | .null, none => true
  | _, _ => false

/-- The transition-resolution loop of `transition` (jira.py:507-511): walk the
reported transitions in order; the first entry whose `name` equals the target
yields its `id`.  A non-dict entry raises `TypeError` at `t['name']`, a dict
without the key raises `KeyError`. -/
def findTid (target : Option String) : List Json → Except PyErr (Option Json)
  | [] => .ok none
  | t :: ts =>
    match t with
    | Json.obj d =>
      (match dictGet d "name" with
       | none => .error (.keyError "name")
       | some nv =>
         if pyEqName nv target then
           match dictGet d "id" with
           | none => .error (.keyError "id")
           | some idv => .ok (some idv)
         else findTid target ts)
    | _ => .error (.typeError "value is not subscriptable")

/-- The GET that `transition` performs first (jira.py:503-504). -/
def transitionGetReq (restbase : String) (p : Params) : Except PyErr JiraReq :=
  match p.issue with
  | none => .error noneConcatErr
  | some iss =>
    .ok ⟨"GET", restbase ++ "/issue/" ++ iss ++ "/transitions", none,
      "application/json", []⟩

/-- `transition` (jira.py:501-533) after the initial GET: `tmeta` is the
decoded body of that GET.  Resolve the transition id (a falsy id — in
particular `None` for no match — raises `ValueError` naming the target at
line 514, and no POST is dispatched), copy the free-form fields, merge
`summary` and `description` when they are not `None` (lines 516-520), add the
`update.comment` block when a comment is given (lines 526-531), and POST. -/
def transition (restbase : String) (p : Params) (tmeta : Json) :
    Except PyErr (Bool × JiraReq) :=
  match p.issue with
  | none => .error noneConcatErr
  | some iss =>
    match tmeta with
    | Json.obj td =>
      (match dictGet td "transitions" with
       | none => .error (.keyError "transitions")
       | some (Json.arr ts) =>
         (match findTid p.status ts with
          | .error e => .error e
          | .ok otid =>
            let failNoTid : Except PyErr (Bool × JiraReq) :=
              .error (.valueError
                ("Failed find valid transition for \x27" ++ pyFmtOpt p.status ++ "\x27"))
            match otid with
            | none => failNoTid
            | some tid =>
              if jsonTruthy tid then
                let fields1 := match p.summary with
                  | some s => dictSet p.fields "summary" (Json.str s)
                  | none => p.fields
                let fields2 := match p.description with
                  | some d => dictSet fields1 "description" (Json.str d)
                  | none => fields1
                let data0 : List (String × Json) :=
                  [("transition", Json.obj [("id", tid)]),
                   ("fields", Json.obj fields2)]
                let data1 := match p.comment with
                  | some c => dictSet data0 "update"
                      (Json.obj [("comment", Json.arr
                        [Json.obj [("add", Json.obj [("body", Json.str c)])]])])
                  | none => data0
                .ok (true, ⟨"POST", restbase ++ "/issue/" ++ iss ++ "/transitions",
                  some (.json (Json.obj data1)), "application/json", []⟩)
              else failNoTid)
       | some _ => .error (.typeError "transitions value is not iterable"))
    | _ => .error (.typeError "response is not subscriptable")

/-- `link` (jira.py:536-545). -/
def link (restbase : String) (p : Params) : Except PyErr (Bool × JiraReq) :=
  .ok (true, ⟨"POST", restbase ++ "/issueLink/",
    some (.json (Json.obj
      [("type", Json.obj [("name", optStrJson p.linktype)]),
       ("inwardIssue", Json.obj [("key", optStrJson p.inwardissue)]),
       ("outwardIssue", Json.obj [("key", optStrJson p.outwardissue)])])),
    "application/json", []⟩)

/-- Models `_prepare_attachment` (jira.py:580-616).  `boundary` stands for the
random 30-character token of line 584, `fs` for the file system (path to the
text of the regular file at that path; the source immediately re-decodes the
file bytes with `to_text` when splicing them into the body, so contents are
modelled as text).  Content resolution (lines 594-601): with falsy inline
content and a truthy filename the file is read; on every other path the source
calls `base64.decode(content)` — `base64.decode` is the legacy file-stream API
`decode(input, output)`, so the call raises `TypeError` for any string (or
`None`) argument, and that `TypeError` is not a `binascii.Error`, so the
`except` clause at line 600 does not catch it. -/
def prepareAttachment (fs : String → Option String) (boundary : String)
    (filename : String) (content : Option String) (mimeType : Option String) :
    Except PyErr (String × String) :=
  let name := basename filename
  let mt := match mimeType with
    | some m => if m != "" then m else guessMime filename
    | none => guessMime filename
  let ms := partitionSlash mt
  if !optTruthy content && filename != "" then
    match fs filename with
    | some fileText =>
      .ok ("multipart/form-data; boundary=" ++ boundary,
        String.intercalate "\r\n"
          ["--" ++ boundary,
           "Content-Disposition: form-data; name=\x22file\x22; filename=" ++
             escapeQuotes name,
           "Content-Type: " ++ ms.1 ++ "/" ++ ms.2,
           "",
           fileText,
           "--" ++ boundary ++ "--",
           ""])
    | none => .error (.fileNotFound filename)
  else
    .error (.typeError
      "decode() missing 1 required positional argument: \x27output\x27")

/-- `attach` (jira.py:548-565): require at least one of filename or content,
require the filename to exist as a file (line 556, unconditionally — also when
inline content is supplied), encode the multipart body, and POST it with the
multipart content type and the `X-Atlassian-Token: no-check` header. -/
def attach (fs : String → Option String) (boundary : String) (restbase : String)
    (p : Params) : Except PyErr (Bool × JiraReq) :=
  match p.attachment with
  | none => .error (.attributeError
      "\x27NoneType\x27 object has no attribute \x27get\x27")
  | some att =>
    if att.filename == "" && !optTruthy att.content then
      .error (.valueError "at least one of filename or content must be provided")
    else if (fs att.filename).isNone then
      .error (.valueError
        ("The provided filename does not exist: " ++ att.filename))
    else
      match prepareAttachment fs boundary att.filename att.content att.mimetype with
      | .error e => .error e
      | .ok ctData =>
        match p.issue with
        | none => .error noneConcatErr
        | some iss =>
          .ok (true, ⟨"POST", restbase ++ "/issue/" ++ iss ++ "/attachments",
            some (.raw ctData.2), ctData.1, [("X-Atlassian-Token", "no-check")]⟩)

/-- The payload segment of a single-part multipart body: the lines strictly
between the blank line that ends the part headers and the closing boundary,
re-joined with CRLF. -/
def extractPayload (boundary body : String) : String :=
  let lines := (splitCRLF body.data).map String.mk
  let afterBlank := (lines.dropWhile (fun l => l != "")).drop 1
  String.intercalate "\r\n"
    (afterBlank.takeWhile (fun l => l != "--" ++ boundary ++ "--"))

/-! ### `main`-level parameter handling (jira.py:619-693) -/

/-- The assignee mutation of `main` (jira.py:671-674): a truthy `assignee`
writes `{'name': ...}` and a truthy `account_id` writes `{'accountId': ...}`
into the shared free-form fields dict under the key `assignee`, before the
operation handler runs. -/
def applyAssignee (p : Params) : Params :=
  let f1 := match p.assignee with
    | some a => if a != "" then
        dictSet p.fields "assignee" (Json.obj [("name", Json.str a)])
      else p.fields
    | none => p.fields
  let f2 := match p.account_id with
    | some a => if a != "" then
        dictSet f1 "assignee" (Json.obj [("accountId", Json.str a)])
      else f1
    | none => f1
  { p with fields := f2 }

/-- Outcome of parameter validation: either the host framework rejects the
invocation before any handler runs, or the (possibly mutated) parameters reach
the dispatch of jira.py:681-688. -/
inductive Dispatched where
  | rejected : String → Dispatched
  | run : Params → Dispatched

/-- Modelled from the spec: the enforcement of
`mutually_exclusive=[('assignee', 'account_id')]` (declared at jira.py:661)
lives in the host framework `AnsibleModule`, outside this repository.  Per the
spec, supplying both parameters is rejected before dispatch, with no request
sent; otherwise `main` mutates the fields dict (jira.py:671-674) and
dispatches. -/
def mainPrepare (p : Params) : Dispatched :=
  if p.assignee.isSome && p.account_id.isSome then
    .rejected "parameters are mutually exclusive: assignee|account_id"
  else .run (applyAssignee p)

/-- The REST base URL construction of `main` (jira.py:676-678). -/
def mkRestbase (uri : String) : String :=
  (if strEndsWith uri "/" then uri else uri ++ "/") ++ "rest/api/2"

/-! ### Characterization helpers used by the theorems -/

/-- Whether the `request` call returned instead of failing. -/
def isOkE (e : Except PyErr Json) : Bool :=
  match e with
  | .ok _ => true
  | .error _ => false

/-- A server-reported transition entry that the resolution loop inspects
without error and without a name match: a dict whose `name` value is present
and does not equal the target. -/
def noMatchOk (target : Option String) (u : Json) : Bool :=
  match u with
  | Json.obj d =>
    (match dictGet d "name" with
     | some nv => !pyEqName nv target
     | none => false)
  | _ => false

/-- A parameter dict with every optional parameter unset and the empty
free-form fields dict (the argument_spec defaults). -/
def emptyParams : Params :=
  ⟨none, none, none, none, none, none, none, none, none, [], none, none, none,
   none, none, none⟩

/-- Parameters for a transition call: target issue, requested status and
free-form fields, everything else unset. -/
def transParams (iss st : String) (flds : List (String × Json)) : Params :=
  { emptyParams with issue := some iss, status := some st, fields := flds }

/-- A one-file file system used by concrete witnesses. -/
def fsEx : String → Option String :=
  fun path => if path == "/tmp/report.txt" then some "hello" else none

/-! ### Lemmas about the Python dict model -/

theorem dictGet_cons (a : String × Json) (tl : List (String × Json)) (k : String) :
    dictGet (a :: tl) k = if a.1 == k then some a.2 else dictGet tl k := by
  cases h : a.1 == k <;> simp [dictGet, List.find?, h]

theorem dictGet_map_set_self (d : List (String × Json)) (k : String) (v : Json)
    (h : d.any (fun kv => kv.1 == k) = true) :
    dictGet (d.map (fun kv => if kv.1 == k then (k, v) else kv)) k = some v := by
  induction d with
  | nil => simp at h
  | cons a tl ih =>
    rw [List.map_cons]
    cases ha : a.1 == k with
    | true => simp [ha, dictGet_cons]
    | false =>
      simp only [ha, Bool.false_eq_true, if_false]
      rw [dictGet_cons, ha]
      simp only [Bool.false_eq_true, if_false]
      apply ih
      simpa [List.any_cons, ha] using h

theorem dictGet_map_replace (d : List (String × Json)) (k k' : String) (v : Json)
    (h : (k' == k) = false) :
    dictGet (d.map (fun kv => if kv.1 == k then (k, v) else kv)) k' = dictGet d k' := by
  have hne : k' ≠ k := by simpa using h
  have h2 : (k == k') = false := by simpa using (Ne.symm hne)
  induction d with
  | nil => rfl
  | cons a tl ih =>
    rw [List.map_cons]
    cases ha : a.1 == k with
    | true =>
      have hk : a.1 = k := by simpa using ha
      simp only [ha, if_true]
      rw [dictGet_cons, dictGet_cons]
      simp only [hk, h2, Bool.false_eq_true, if_false]
      exact ih
    | false =>
      simp only [ha, Bool.false_eq_true, if_false]
      rw [dictGet_cons, dictGet_cons]
      cases hb : a.1 == k' <;> simp only [hb, if_true, Bool.false_eq_true, if_false]
      exact ih

theorem dictGet_append_single_self (d : List (String × Json)) (k : String) (v : Json)
    (h : d.any (fun kv => kv.1 == k) = false) :
    dictGet (d ++ [(k, v)]) k = some v := by
  induction d with
  | nil => simp [dictGet_cons]
  | cons a tl ih =>
    simp only [List.any_cons, Bool.or_eq_false_iff] at h
    rw [List.cons_append, dictGet_cons, h.1]
    simp only [Bool.false_eq_true, if_false]
    exact ih h.2

theorem dictGet_append_single_ne (d : List (String × Json)) (k k' : String) (v : Json)
    (h : (k' == k) = false) :
    dictGet (d ++ [(k, v)]) k' = dictGet d k' := by
  have h2 : (k == k') = false := by
    have : k' ≠ k := by simpa using h
    simpa using (Ne.symm this)
  induction d with
  | nil => simp [dictGet, List.find?, h2]
  | cons a tl ih =>
    rw [List.cons_append, dictGet_cons, dictGet_cons]
    cases hb : a.1 == k' <;> simp only [hb, if_true, Bool.false_eq_true, if_false]
    exact ih

theorem dictGet_dictSet_self (d : List (String × Json)) (k : String) (v : Json) :
    dictGet (dictSet d k v) k = some v := by
  unfold dictSet
  cases hAny : d.any (fun kv => kv.1 == k) with
  | true =>
    simp only [if_true]
    exact dictGet_map_set_self d k v hAny
  | false =>
    simp only [Bool.false_eq_true, if_false]
    exact dictGet_append_single_self d k v hAny

theorem dictGet_dictSet_ne (d : List (String × Json)) (k k' : String) (v : Json)
    (h : (k' == k) = false) :
    dictGet (dictSet d k v) k' = dictGet d k' := by
  unfold dictSet
  cases hAny : d.any (fun kv => kv.1 == k) with
  | true =>
    simp only [if_true]
    exact dictGet_map_replace d k k' v h
  | false =>
    simp only [Bool.false_eq_true, if_false]
    exact dictGet_append_single_ne d k k' v h

/-! ### Lemmas about the transition-resolution loop -/

theorem findTid_cons_skip (target : Option String) (u : Json) (ts : List Json)
    (h : noMatchOk target u = true) :
    findTid target (u :: ts) = findTid target ts := by
  cases u with
  | obj d =>
    simp only [noMatchOk] at h
    cases hn : dictGet d "name" with
    | none => rw [hn] at h; simp at h
    | some nv =>
      rw [hn] at h
      simp only [Bool.not_eq_true'] at h
      simp [findTid, hn, h]
  | null => simp [noMatchOk] at h
  | bool b => simp [noMatchOk] at h
  | num n => simp [noMatchOk] at h
  | str s => simp [noMatchOk] at h
  | arr xs => simp [noMatchOk] at h

theorem findTid_append_skip (target : Option String) (ts₁ rest : List Json)
    (h : ts₁.all (noMatchOk target) = true) :
    findTid target (ts₁ ++ rest) = findTid target rest := by
  induction ts₁ with
  | nil => rfl
  | cons u tl ih =>
    simp only [List.all_cons, Bool.and_eq_true] at h
    rw [List.cons_append, findTid_cons_skip target u _ h.1]
    exact ih h.2

theorem findTid_all_none (target : Option String) (ts : List Json)
    (h : ts.all (noMatchOk target) = true) :
    findTid target ts = .ok none := by
  have := findTid_append_skip target ts [] h
  rw [List.append_nil] at this
  rw [this]
  rfl

theorem findTid_found (st : String) (d : List (String × Json)) (ts : List Json)
    (tid : Json) (hn : dictGet d "name" = some (Json.str st))
    (hid : dictGet d "id" = some tid) :
    findTid (some st) (Json.obj d :: ts) = .ok (some tid) := by
  simp [findTid, hn, pyEqName, hid]

theorem requestInterpret_fail_of_status (status : Nat) (body : String)
    (hs : successStatus status = false) :
    ∃ e, requestInterpret status body = .error e := by
  unfold requestInterpret
  simp only [hs, Bool.false_eq_true, if_false]
  cases hp : jsonParse body with
  | none => exact ⟨_, rfl⟩
  | some e =>
    cases ht : jsonTruthy e with
    | false => simp only [ht, Bool.false_eq_true, if_false]; exact ⟨_, rfl⟩
    | true =>
      simp only [ht, if_true]
      cases e with
      | obj d =>
        cases he : (errParts d).isEmpty with
        | true => simp only [he, if_true]; exact ⟨_, rfl⟩
        | false => simp only [he, Bool.false_eq_true, if_false]; exact ⟨_, rfl⟩
      | null => exact ⟨_, rfl⟩
      | bool b => exact ⟨_, rfl⟩
      | num n => exact ⟨_, rfl⟩
      | str s => exact ⟨_, rfl⟩
      | arr xs => exact ⟨_, rfl⟩

/-! ### Claim theorems -/

/-- C2 (amended): the response-interpretation stage of `request` succeeds
exactly when the status is 200, 201 or 204 AND the body is empty or parses as
JSON (on a success status with a malformed body, `json.loads` at jira.py:423
raises, so the call fails even though the status is a success status — see the
counterexample); on success it returns the decoded JSON value, the empty
mapping for an empty body. -/
theorem request_status_c2 (status : Nat) (body : String) :
    (isOkE (requestInterpret status body) = true ↔
      successStatus status = true ∧ (body = "" ∨ (jsonParse body).isSome = true))
    ∧ (successStatus status = true → body = "" →
        requestInterpret status body = .ok (Json.obj []))
    ∧ (∀ j : Json, successStatus status = true → body ≠ "" → jsonParse body = some j →
        requestInterpret status body = .ok j) := by
  refine ⟨⟨?_, ?_⟩, ?_, ?_⟩
  · intro h
    by_cases hs : successStatus status = true
    · refine ⟨hs, ?_⟩
      by_cases hb : body = ""
      · exact Or.inl hb
      · right
        cases hp : jsonParse body with
        | some j => rfl
        | none =>
          exfalso
          have hb' : (body == "") = false := by simp [hb]
          simp [requestInterpret, hs, hb', hp, isOkE] at h
    · exfalso
      have hs' : successStatus status = false := by simpa using hs
      obtain ⟨e, he⟩ := requestInterpret_fail_of_status status body hs'
      rw [he] at h
      simp [isOkE] at h
  · rintro ⟨hs, hor⟩
    rcases hor with hb | hp
    · have hb' : (body == "") = true := by simp [hb]
      simp [requestInterpret, hs, hb', isOkE]
    · cases hq : jsonParse body with
      | none => rw [hq] at hp; simp at hp
      | some j =>
        by_cases hb : body = ""
        · have hb' : (body == "") = true := by simp [hb]
          simp [requestInterpret, hs, hb', isOkE]
        · have hb' : (body == "") = false := by simp [hb]
          simp [requestInterpret, hs, hb', hq, isOkE]
  · intro hs hb
    have hb' : (body == "") = true := by simp [hb]
    simp [requestInterpret, hs, hb']
  · intro j hs hb hp
    have hb' : (body == "") = false := by simp [hb]
    simp [requestInterpret, hs, hb', hp]

/-- Witness for C2: status 200 with an empty body succeeds with the empty
mapping, and status 201 with a JSON body succeeds with the decoded value. -/
theorem request_status_c2_witness :
    requestInterpret 200 "" = .ok (Json.obj [])
    ∧ requestInterpret 201 "[1]" = .ok (Json.arr [Json.num 1]) :=
  ⟨(request_status_c2 200 "").2.1 rfl rfl,
   (request_status_c2 201 "[1]").2.2 (Json.arr [Json.num 1]) rfl (by decide) rfl⟩

/-- Counterexample to C2 as stated: status 200 is in the success set, yet with
the non-JSON body `"x"` the call does not succeed — `json.loads` raises. -/
theorem request_status_c2_counterexample :
    successStatus 200 = true
    ∧ requestInterpret 200 "x" = .error (.valueError "Expecting value (json.loads)") :=
  ⟨rfl, rfl⟩

/-- C3 (amended): for a failing status the reported message follows this
policy — an unparseable body is reported verbatim; a body parsing to a falsy
value is also reported verbatim; a truthy JSON object is mined for present,
truthy `errorMessages`/`errors` values, which are rendered and joined with
`", "` when at least one exists, the rendering of the whole object being the
fallback; a truthy non-object raises `AttributeError` at `error.get`. -/
theorem failure_policy_c3 (status : Nat) (body : String)
    (hs : successStatus status = false) :
    (jsonParse body = none → requestInterpret status body = .error (.failJson body))
    ∧ (∀ j : Json, jsonParse body = some j → jsonTruthy j = false →
        requestInterpret status body = .error (.failJson body))
    ∧ (∀ d : List (String × Json), jsonParse body = some (Json.obj d) →
        jsonTruthy (Json.obj d) = true → (errParts d).isEmpty = false →
        requestInterpret status body
          = .error (.failJson (String.intercalate ", " (errParts d))))
    ∧ (∀ d : List (String × Json), jsonParse body = some (Json.obj d) →
        jsonTruthy (Json.obj d) = true → (errParts d).isEmpty = true →
        requestInterpret status body = .error (.failJson (pyToNative (Json.obj d))))
    ∧ (∀ j : Json, jsonParse body = some j → jsonTruthy j = true →
        (∀ d : List (String × Json), j ≠ Json.obj d) →
        requestInterpret status body
          = .error (.attributeError "object has no attribute \x27get\x27")) := by
  refine ⟨?_, ?_, ?_, ?_, ?_⟩
  · intro hp
    simp [requestInterpret, hs, hp]
  · intro j hp ht
    simp [requestInterpret, hs, hp, ht]
  · intro d hp ht he
    simp [requestInterpret, hs, hp, ht, he]
  · intro d hp ht he
    simp [requestInterpret, hs, hp, ht, he]
  · intro j hp ht hno
    cases j with
    | obj d => exact absurd rfl (hno d)
    | null => simp [jsonTruthy] at ht
    | bool b => simp [requestInterpret, hs, hp, ht]
    | num n => simp [requestInterpret, hs, hp, ht]
    | str s => simp [requestInterpret, hs, hp, ht]
    | arr xs => simp [requestInterpret, hs, hp, ht]

/-- Witness for C3: status 502 with the non-JSON body `"oops"` fails with
exactly the raw body, and status 400 with `{"errorMessages": ["a"]}` fails with
the rendered field value. -/
theorem failure_policy_c3_witness :
    requestInterpret 502 "oops" = .error (.failJson "oops")
    ∧ requestInterpret 400 "\x7b\x22errorMessages\x22: [\x22a\x22]\x7d"
      = .error (.failJson "[\x27a\x27]") :=
  ⟨(failure_policy_c3 502 "oops" rfl).1 rfl,
   (failure_policy_c3 400 "\x7b\x22errorMessages\x22: [\x22a\x22]\x7d" rfl).2.2.1
     [("errorMessages", Json.arr [Json.str "a"])] rfl rfl rfl⟩

/-- Counterexample to C3 as stated: status 400 with the parseable body
`{"errorMessages": []}` — the claim renders and joins the present field values,
predicting `"[]"`, but the code skips falsy field values and reports the
rendering of the whole parsed object instead. -/
theorem failure_policy_c3_counterexample :
    requestInterpret 400 "\x7b\x22errorMessages\x22: []\x7d"
      = .error (.failJson "\x7b\x27errorMessages\x27: []\x7d")
    ∧ "\x7b\x27errorMessages\x27: []\x7d" ≠ "[]" :=
  ⟨rfl, by decide⟩

/-- C4 (code bug): every call to `request` raises `TypeError` at jira.py:392 —
`if isinstance(additional_headers) == dict:` calls `isinstance` with a single
argument — before the Authorization and Content-Type headers are installed and
before any HTTP request is dispatched, for every combination of arguments,
including the attach path that passes the multipart content type and the
`X-Atlassian-Token: no-check` header. -/
theorem request_headers_c4_bug
    (http : String → String → List (String × String) → Option BodyData → Nat × String)
    (url : String) (data : Option BodyData) (method : String) (ct : String)
    (ah : Option (List (String × String))) :
    request http url data method ct ah
      = .error (.typeError "isinstance expected 2 arguments, got 1") := rfl

/-- C5: transition resolution matches the requested status against the
server-reported transitions by exact string equality and the first match wins —
the POSTed body carries `transition.id` equal to the id of that first matching
entry; when no entry matches, the handler raises `ValueError` naming the
requested status and returns no request, so no POST is sent. -/
theorem transition_match_c5 :
    (∀ (rb iss st : String) (flds : List (String × Json)) (ts₁ ts₂ : List Json)
       (d : List (String × Json)) (tid : Json),
       ts₁.all (noMatchOk (some st)) = true →
       dictGet d "name" = some (Json.str st) →
       dictGet d "id" = some tid →
       jsonTruthy tid = true →
       transition rb (transParams iss st flds)
           (Json.obj [("transitions", Json.arr (ts₁ ++ Json.obj d :: ts₂))])
         = .ok (true, ⟨"POST", rb ++ "/issue/" ++ iss ++ "/transitions",
             some (.json (Json.obj [("transition", Json.obj [("id", tid)]),
               ("fields", Json.obj flds)])), "application/json", []⟩))
    ∧ (∀ (rb iss st : String) (flds : List (String × Json)) (ts : List Json),
       ts.all (noMatchOk (some st)) = true →
       transition rb (transParams iss st flds)
           (Json.obj [("transitions", Json.arr ts)])
         = .error (.valueError
             ("Failed find valid transition for \x27" ++ st ++ "\x27"))) := by
  constructor
  · intro rb iss st flds ts₁ ts₂ d tid h1 hn hid ht
    have hfind : findTid (some st) (ts₁ ++ Json.obj d :: ts₂) = .ok (some tid) := by
      rw [findTid_append_skip _ _ _ h1]
      exact findTid_found st d ts₂ tid hn hid
    simp [transition, transParams, emptyParams, dictGet, List.find?, hfind, ht]
  · intro rb iss st flds ts h
    have hfind := findTid_all_none (some st) ts h
    simp [transition, transParams, emptyParams, dictGet, List.find?, hfind, pyFmtOpt]

/-- Witness for C5: with reported transitions Close/2 then Resolve Issue/5 and
requested status "Resolve Issue" the POST carries id "5"; with requested status
"Done" absent from the list the call fails naming "Done". -/
theorem transition_match_c5_witness :
    transition "R" (transParams "HSP-1" "Resolve Issue" [])
        (Json.obj [("transitions", Json.arr
          [Json.obj [("name", Json.str "Close"), ("id", Json.str "2")],
           Json.obj [("name", Json.str "Resolve Issue"), ("id", Json.str "5")]])])
      = .ok (true, ⟨"POST", "R/issue/HSP-1/transitions",
          some (.json (Json.obj [("transition", Json.obj [("id", Json.str "5")]),
            ("fields", Json.obj [])])), "application/json", []⟩)
    ∧ transition "R" (transParams "HSP-1" "Done" [])
        (Json.obj [("transitions", Json.arr
          [Json.obj [("name", Json.str "Resolve Issue"), ("id", Json.str "5")]])])
      = .error (.valueError "Failed find valid transition for \x27Done\x27") :=
  ⟨transition_match_c5.1 "R" "HSP-1" "Resolve Issue" []
      [Json.obj [("name", Json.str "Close"), ("id", Json.str "2")]] []
      [("name", Json.str "Resolve Issue"), ("id", Json.str "5")] (Json.str "5")
      rfl rfl rfl rfl,
   transition_match_c5.2 "R" "HSP-1" "Done" []
      [Json.obj [("name", Json.str "Resolve Issue"), ("id", Json.str "5")]] rfl⟩

/-- C6: a supplied (truthy) assignee display name puts
`assignee = {name: ...}` into the fields dict, a supplied account identifier
puts `assignee = {accountId: ...}` there, and supplying both is rejected before
dispatch (the mutually-exclusive declaration of jira.py:661, enforced by the
host framework), so no request is sent. -/
theorem assignee_c6 :
    (∀ (p : Params) (a : String), p.assignee = some a → a ≠ "" → p.account_id = none →
       mainPrepare p = .run (applyAssignee p)
       ∧ dictGet (applyAssignee p).fields "assignee"
           = some (Json.obj [("name", Json.str a)]))
    ∧ (∀ (p : Params) (a : String), p.account_id = some a → a ≠ "" → p.assignee = none →
       mainPrepare p = .run (applyAssignee p)
       ∧ dictGet (applyAssignee p).fields "assignee"
           = some (Json.obj [("accountId", Json.str a)]))
    ∧ (∀ (p : Params) (x y : String), p.assignee = some x → p.account_id = some y →
       mainPrepare p
         = .rejected "parameters are mutually exclusive: assignee|account_id") := by
  refine ⟨?_, ?_, ?_⟩
  · intro p a ha hne hacc
    have ha' : (a != "") = true := by simpa using hne
    constructor
    · simp [mainPrepare, ha, hacc]
    · simp [applyAssignee, ha, hacc, ha', dictGet_dictSet_self]
  · intro p a ha hne hassign
    have ha' : (a != "") = true := by simpa using hne
    constructor
    · simp [mainPrepare, ha, hassign]
    · simp [applyAssignee, ha, hassign, ha', dictGet_dictSet_self]
  · intro p x y hx hy
    simp [mainPrepare, hx, hy]

/-- Witness for C6: assignee "alice" produces `{name: "alice"}`, account_id
"123" produces `{accountId: "123"}`, both together are rejected. -/
theorem assignee_c6_witness :
    (mainPrepare { emptyParams with assignee := some "alice" }
       = .run (applyAssignee { emptyParams with assignee := some "alice" })
     ∧ dictGet (applyAssignee { emptyParams with assignee := some "alice" }).fields
         "assignee" = some (Json.obj [("name", Json.str "alice")]))
    ∧ (mainPrepare { emptyParams with account_id := some "123" }
       = .run (applyAssignee { emptyParams with account_id := some "123" })
     ∧ dictGet (applyAssignee { emptyParams with account_id := some "123" }).fields
         "assignee" = some (Json.obj [("accountId", Json.str "123")]))
    ∧ mainPrepare { emptyParams with
        assignee := some "alice", account_id := some "123" }
      = .rejected "parameters are mutually exclusive: assignee|account_id" :=
  ⟨assignee_c6.1 _ "alice" rfl (by decide) rfl,
   assignee_c6.2.1 _ "123" rfl (by decide) rfl,
   assignee_c6.2.2 _ "alice" "123" rfl rfl⟩

/-- C9: for the transition operation a non-None `summary` parameter is merged
into the POSTed fields mapping, and likewise a non-None `description`, each
overwriting any same-named entry of the free-form fields dict (jira.py:516-520);
the merged entries are what the POST body carries. -/
theorem transition_merge_c9 (rb iss st s d : String) (flds : List (String × Json))
    (ts : List Json) (tid : Json)
    (hf : findTid (some st) ts = .ok (some tid)) (ht : jsonTruthy tid = true) :
    transition rb
        { emptyParams with
          issue := some iss, status := some st,
          summary := some s, description := some d, fields := flds }
        (Json.obj [("transitions", Json.arr ts)])
      = .ok (true, ⟨"POST", rb ++ "/issue/" ++ iss ++ "/transitions",
          some (.json (Json.obj [("transition", Json.obj [("id", tid)]),
            ("fields", Json.obj (dictSet (dictSet flds "summary" (Json.str s))
              "description" (Json.str d)))])), "application/json", []⟩)
    ∧ dictGet (dictSet (dictSet flds "summary" (Json.str s)) "description"
        (Json.str d)) "summary" = some (Json.str s)
    ∧ dictGet (dictSet (dictSet flds "summary" (Json.str s)) "description"
        (Json.str d)) "description" = some (Json.str d) := by
  refine ⟨?_, ?_, ?_⟩
  · simp [transition, emptyParams, dictGet, List.find?, hf, ht]
  · rw [dictGet_dictSet_ne _ _ _ _ (by decide)]
    exact dictGet_dictSet_self _ _ _
  · exact dictGet_dictSet_self _ _ _

/-- Witness for C9: with fields `{summary: "old", description: "old"}` and
parameters summary "new s", description "new d", the POSTed fields carry the
parameter values. -/
theorem transition_merge_c9_witness :
    transition "R"
        { emptyParams with
          issue := some "K-1", status := some "Start",
          summary := some "new s", description := some "new d",
          fields := [("summary", Json.str "old"), ("description", Json.str "old")] }
        (Json.obj [("transitions", Json.arr
          [Json.obj [("name", Json.str "Start"), ("id", Json.str "7")]])])
      = .ok (true, ⟨"POST", "R/issue/K-1/transitions",
          some (.json (Json.obj [("transition", Json.obj [("id", Json.str "7")]),
            ("fields", Json.obj [("summary", Json.str "new s"),
              ("description", Json.str "new d")])])), "application/json", []⟩)
    ∧ dictGet (dictSet (dictSet
        [("summary", Json.str "old"), ("description", Json.str "old")]
        "summary" (Json.str "new s")) "description" (Json.str "new d")) "summary"
      = some (Json.str "new s")
    ∧ dictGet (dictSet (dictSet
        [("summary", Json.str "old"), ("description", Json.str "old")]
        "summary" (Json.str "new s")) "description" (Json.str "new d")) "description"
      = some (Json.str "new d") :=
  transition_merge_c9 "R" "K-1" "Start" "new s" "new d"
    [("summary", Json.str "old"), ("description", Json.str "old")]
    [Json.obj [("name", Json.str "Start"), ("id", Json.str "7")]]
    (Json.str "7") rfl rfl

/-- C10: the assignee entry written into the shared free-form fields dict by
`main` reaches whatever body the chosen handler builds from that dict; for the
update operation it therefore lands under the top-level `update` key of the PUT
body (not inside a `fields` key). -/
theorem update_assignee_c10 (rb iss a : String) (p : Params)
    (hiss : p.issue = some iss) (ha : p.assignee = some a) (hne : a ≠ "")
    (hacc : p.account_id = none) :
    update rb (applyAssignee p)
      = .ok (true, ⟨"PUT", rb ++ "/issue/" ++ iss,
          some (.json (Json.obj [("update",
            Json.obj (dictSet p.fields "assignee"
              (Json.obj [("name", Json.str a)])))])), "application/json", []⟩)
    ∧ dictGet (dictSet p.fields "assignee" (Json.obj [("name", Json.str a)]))
        "assignee" = some (Json.obj [("name", Json.str a)]) := by
  have ha' : (a != "") = true := by simpa using hne
  constructor
  · simp [update, applyAssignee, hiss, ha, hacc, ha']
  · exact dictGet_dictSet_self _ _ _

/-- Witness for C10: update with assignee "alice" PUTs
`{update: {assignee: {name: "alice"}}}`. -/
theorem update_assignee_c10_witness :
    update "R" (applyAssignee { emptyParams with
        issue := some "K-1", assignee := some "alice" })
      = .ok (true, ⟨"PUT", "R/issue/K-1",
          some (.json (Json.obj [("update",
            Json.obj [("assignee", Json.obj [("name", Json.str "alice")])])])),
          "application/json", []⟩)
    ∧ dictGet (dictSet ([] : List (String × Json)) "assignee"
        (Json.obj [("name", Json.str "alice")])) "assignee"
      = some (Json.obj [("name", Json.str "alice")]) :=
  update_assignee_c10 "R" "K-1" "alice"
    { emptyParams with issue := some "K-1", assignee := some "alice" }
    rfl rfl (by decide) rfl

/-- C7 (code bug): with inline content supplied, `_prepare_attachment` raises
`TypeError` for every content string — also well-formed base64 such as
`"aGVsbG8="` — because line 599 calls the legacy stream API `base64.decode`
instead of `base64.b64decode`, and the `TypeError` is not the `binascii.Error`
the `except` expects; independently, `attach` requires the filename to exist as
a file (line 556) even when inline content is supplied, so with content given
and a nonexistent path the call fails. -/
theorem attach_content_c7_bug :
    prepareAttachment fsEx "BOUND" "/tmp/report.txt" (some "aGVsbG8=") none
      = .error (.typeError
          "decode() missing 1 required positional argument: \x27output\x27")
    ∧ attach (fun _ => none) "BOUND" "R"
        { emptyParams with
          issue := some "HSP-1",
          attachment := some ⟨"/tmp/report.txt", some "aGVsbG8=", none⟩ }
      = .error (.valueError
          "The provided filename does not exist: /tmp/report.txt") :=
  ⟨rfl, rfl⟩

/-- C8 (code bug): the encoder/payload-extractor pair round-trips on the route
that works — reading the file `/tmp/report.txt` containing `hello` produces a
multipart body whose payload segment extracts back to `hello` — but on the
route the claim quantifies over (inline content that is the base64 encoding of
the payload, here `"aGVsbG8="` for `hello`) the encoder raises `TypeError` at
`base64.decode` and no body is produced at all. -/
theorem attachment_roundtrip_c8_bug :
    prepareAttachment fsEx "BOUND" "/tmp/report.txt" none none
      = .ok ("multipart/form-data; boundary=BOUND",
          "--BOUND\r\nContent-Disposition: form-data; name=\x22file\x22; filename=report.txt\r\nContent-Type: text/plain\r\n\r\nhello\r\n--BOUND--\r\n")
    ∧ extractPayload "BOUND"
        "--BOUND\r\nContent-Disposition: form-data; name=\x22file\x22; filename=report.txt\r\nContent-Type: text/plain\r\n\r\nhello\r\n--BOUND--\r\n"
      = "hello"
    ∧ prepareAttachment fsEx "BOUND" "/tmp/report.txt" (some "aGVsbG8=") none
      = .error (.typeError
          "decode() missing 1 required positional argument: \x27output\x27") :=
  ⟨rfl, rfl, rfl⟩

/-- C1: for each of the nine operations, given valid inputs, the handler
dispatches exactly the method, URL path and body shape of the table — create:
POST /issue/ with `{fields: {project, summary, issuetype, description?,
overrides}}`; comment: POST /issue/KEY/comment with `{body: ...}`; edit: PUT
/issue/KEY with `{fields: ...}`; update: PUT /issue/KEY with `{update: ...}`;
fetch: GET /issue/KEY; search: GET /search?jql=...&fields=...&maxResults=...;
transition: GET the transitions then POST `{transition: {id}, fields}`; link:
POST /issueLink/ with `{type, inwardIssue, outwardIssue}`; attach: POST
/issue/KEY/attachments with a raw multipart body — and returns the `changed`
flag of the table (false exactly for fetch and search) paired with the
dispatched request. -/
theorem dispatch_table_c1 :
    (∀ (rb : String) (p : Params) (d : String), p.description = some d → d ≠ "" →
      create rb p = .ok (true, ⟨"POST", rb ++ "/issue/",
        some (.json (Json.obj [("fields", Json.obj (dictUpdate
          [("project", Json.obj [("key", optStrJson p.project)]),
           ("summary", optStrJson p.summary),
           ("issuetype", Json.obj [("name", optStrJson p.issuetype)]),
           ("description", Json.str d)] p.fields))])),
        "application/json", []⟩))
    ∧ (∀ (rb : String) (p : Params) (iss : String), p.issue = some iss →
      comment rb p = .ok (true, ⟨"POST", rb ++ "/issue/" ++ iss ++ "/comment",
        some (.json (Json.obj [("body", optStrJson p.comment)])),
        "application/json", []⟩))
    ∧ (∀ (rb : String) (p : Params) (iss : String), p.issue = some iss →
      edit rb p = .ok (true, ⟨"PUT", rb ++ "/issue/" ++ iss,
        some (.json (Json.obj [("fields", Json.obj p.fields)])),
        "application/json", []⟩))
    ∧ (∀ (rb : String) (p : Params) (iss : String), p.issue = some iss →
      update rb p = .ok (true, ⟨"PUT", rb ++ "/issue/" ++ iss,
        some (.json (Json.obj [("update", Json.obj p.fields)])),
        "application/json", []⟩))
    ∧ (∀ (rb : String) (p : Params) (iss : String), p.issue = some iss →
      fetch rb p = .ok (false, ⟨"GET", rb ++ "/issue/" ++ iss, none,
        "application/json", []⟩))
    ∧ (∀ (rb : String) (p : Params) (q : String) (m : Int),
      p.jql = some q → p.maxresults = some m → m ≠ 0 →
      search rb p = .ok (false, ⟨"GET",
        rb ++ "/search?jql=" ++ urlquote q ++
          (if p.fields.isEmpty then "" else "&fields=" ++
            String.intercalate "&fields=" (p.fields.map (fun kv => urlquote kv.1))) ++
          "&maxResults=" ++ toString m,
        none, "application/json", []⟩))
    ∧ (∀ (rb : String) (p : Params) (iss : String) (ts : List Json) (tid : Json),
      p.issue = some iss → p.summary = none → p.description = none →
      p.comment = none → findTid p.status ts = .ok (some tid) →
      jsonTruthy tid = true →
      transitionGetReq rb p
        = .ok ⟨"GET", rb ++ "/issue/" ++ iss ++ "/transitions", none,
            "application/json", []⟩
      ∧ transition rb p (Json.obj [("transitions", Json.arr ts)])
        = .ok (true, ⟨"POST", rb ++ "/issue/" ++ iss ++ "/transitions",
            some (.json (Json.obj [("transition", Json.obj [("id", tid)]),
              ("fields", Json.obj p.fields)])), "application/json", []⟩))
    ∧ (∀ (rb : String) (p : Params),
      link rb p = .ok (true, ⟨"POST", rb ++ "/issueLink/",
        some (.json (Json.obj
          [("type", Json.obj [("name", optStrJson p.linktype)]),
           ("inwardIssue", Json.obj [("key", optStrJson p.inwardissue)]),
           ("outwardIssue", Json.obj [("key", optStrJson p.outwardissue)])])),
        "application/json", []⟩))
    ∧ (∀ (fs : String → Option String) (bnd rb : String) (p : Params)
        (iss fn text : String),
      p.attachment = some ⟨fn, none, none⟩ → p.issue = some iss → fn ≠ "" →
      fs fn = some text →
      attach fs bnd rb p = .ok (true,
        ⟨"POST", rb ++ "/issue/" ++ iss ++ "/attachments",
         some (.raw (String.intercalate "\r\n"
           ["--" ++ bnd,
            "Content-Disposition: form-data; name=\x22file\x22; filename=" ++
              escapeQuotes (basename fn),
            "Content-Type: " ++ (partitionSlash (guessMime fn)).1 ++ "/" ++
              (partitionSlash (guessMime fn)).2,
            "",
            text,
            "--" ++ bnd ++ "--",
            ""])),
         "multipart/form-data; boundary=" ++ bnd,
         [("X-Atlassian-Token", "no-check")]⟩)) := by
  refine ⟨?_, ?_, ?_, ?_, ?_, ?_, ?_, ?_, ?_⟩
  · intro rb p d hd hne
    have h2 : optTruthy (some d) = true := by simpa [optTruthy] using hne
    unfold create
    rw [hd]
    simp only [h2, if_true, optStrJson]
    cases hf : p.fields with
    | nil => rfl
    | cons kv tl => rfl
  · intro rb p iss h
    simp [comment, h]
  · intro rb p iss h
    simp [edit, h]
  · intro rb p iss h
    simp [update, h]
  · intro rb p iss h
    simp [fetch, h]
  · intro rb p q m hq hm hmne
    have hm' : (m != 0) = true := by simpa using hmne
    unfold search
    rw [hq, hm]
    simp only [hm', if_true]
    cases hf : p.fields with
    | nil => simp [String.append_assoc]
    | cons kv tl => simp [String.append_assoc]
  · intro rb p iss ts tid hiss hsum hdesc hcom hf ht
    constructor
    · simp [transitionGetReq, hiss]
    · simp [transition, hiss, dictGet, List.find?, hf, ht, hsum, hdesc, hcom]
  · intro rb p
    rfl
  · intro fs bnd rb p iss fn text hatt hiss hfn hfs
    have hfn' : (fn == "") = false := by simpa using hfn
    have hfn'' : (fn != "") = true := by simpa using hfn
    simp [attach, prepareAttachment, hatt, hiss, hfs, hfn', hfn'', optTruthy]

/-- Witness for C1: one concrete valid invocation per operation, with the
dispatched method, URL and body spelled out. -/
theorem dispatch_table_c1_witness :
    create "R" { emptyParams with
        project := some "ANS", summary := some "S", issuetype := some "Task",
        description := some "D" }
      = .ok (true, ⟨"POST", "R/issue/",
          some (.json (Json.obj [("fields", Json.obj
            [("project", Json.obj [("key", Json.str "ANS")]),
             ("summary", Json.str "S"),
             ("issuetype", Json.obj [("name", Json.str "Task")]),
             ("description", Json.str "D")])])), "application/json", []⟩)
    ∧ comment "R" { emptyParams with issue := some "K-1", comment := some "hi" }
      = .ok (true, ⟨"POST", "R/issue/K-1/comment",
          some (.json (Json.obj [("body", Json.str "hi")])),
          "application/json", []⟩)
    ∧ edit "R" { emptyParams with
        issue := some "K-1", fields := [("labels", Json.arr [Json.str "x"])] }
      = .ok (true, ⟨"PUT", "R/issue/K-1",
          some (.json (Json.obj [("fields",
            Json.obj [("labels", Json.arr [Json.str "x"])])])),
          "application/json", []⟩)
    ∧ update "R" { emptyParams with
        issue := some "K-1", fields := [("labels", Json.arr [Json.str "x"])] }
      = .ok (true, ⟨"PUT", "R/issue/K-1",
          some (.json (Json.obj [("update",
            Json.obj [("labels", Json.arr [Json.str "x"])])])),
          "application/json", []⟩)
    ∧ fetch "R" { emptyParams with issue := some "K-1" }
      = .ok (false, ⟨"GET", "R/issue/K-1", none, "application/json", []⟩)
    ∧ search "R" { emptyParams with
        jql := some "a b", maxresults := some 10,
        fields := [("lastViewed", Json.null)] }
      = .ok (false, ⟨"GET", "R/search?jql=a%20b&fields=lastViewed&maxResults=10",
          none, "application/json", []⟩)
    ∧ (transitionGetReq "R" { emptyParams with
          issue := some "K-1", status := some "Start" }
        = .ok ⟨"GET", "R/issue/K-1/transitions", none, "application/json", []⟩
      ∧ transition "R" { emptyParams with
          issue := some "K-1", status := some "Start" }
          (Json.obj [("transitions", Json.arr
            [Json.obj [("name", Json.str "Start"), ("id", Json.str "7")]])])
        = .ok (true, ⟨"POST", "R/issue/K-1/transitions",
            some (.json (Json.obj [("transition",
              Json.obj [("id", Json.str "7")]), ("fields", Json.obj [])])),
            "application/json", []⟩))
    ∧ link "R" { emptyParams with
        linktype := some "Relates", inwardissue := some "HSP-1",
        outwardissue := some "MKY-1" }
      = .ok (true, ⟨"POST", "R/issueLink/",
          some (.json (Json.obj
            [("type", Json.obj [("name", Json.str "Relates")]),
             ("inwardIssue", Json.obj [("key", Json.str "HSP-1")]),
             ("outwardIssue", Json.obj [("key", Json.str "MKY-1")])])),
          "application/json", []⟩)
    ∧ attach fsEx "BOUND" "R" { emptyParams with
        issue := some "HSP-1",
        attachment := some ⟨"/tmp/report.txt", none, none⟩ }
      = .ok (true, ⟨"POST", "R/issue/HSP-1/attachments",
          some (.raw (String.intercalate "\r\n"
            ["--BOUND",
             "Content-Disposition: form-data; name=\x22file\x22; filename=report.txt",
             "Content-Type: text/plain",
             "",
             "hello",
             "--BOUND--",
             ""])),
          "multipart/form-data; boundary=BOUND",
          [("X-Atlassian-Token", "no-check")]⟩) :=
  ⟨dispatch_table_c1.1 "R" _ "D" rfl (by decide),
   dispatch_table_c1.2.1 "R" _ "K-1" rfl,
   dispatch_table_c1.2.2.1 "R" _ "K-1" rfl,
   dispatch_table_c1.2.2.2.1 "R" _ "K-1" rfl,
   dispatch_table_c1.2.2.2.2.1 "R" _ "K-1" rfl,
   dispatch_table_c1.2.2.2.2.2.1 "R" _ "a b" 10 rfl rfl (by decide),
   dispatch_table_c1.2.2.2.2.2.2.1 "R" _ "K-1"
     [Json.obj [("name", Json.str "Start"), ("id", Json.str "7")]]
     (Json.str "7") rfl rfl rfl rfl rfl rfl,
   dispatch_table_c1.2.2.2.2.2.2.2.1 "R" _,
   dispatch_table_c1.2.2.2.2.2.2.2.2 fsEx "BOUND" "R" _ "HSP-1"
     "/tmp/report.txt" "hello" rfl rfl (by decide) rfl⟩

end Jira
